import Mathlib

/-!
Shallow embedding of the authentication/session core of the
`fireart-server-test` repository (NestJS + PostgreSQL), covering
`JwtService` (jwt.service.ts), `AuthService` (auth.service.ts),
`AuthGuard` (auth.guard.ts) and the relevant table shapes from
`DatabaseService.initializeTables` (database.service.ts).

Modelling conventions:
* Time is a natural number of seconds (`now`); SQL `NOW()` and
  JavaScript `new Date()` are both the `now` parameter of the operation.
* The database tables are Lean lists of row structures inside `DBState`;
  `SELECT ... WHERE` is `List.find?` / `List.filter`, `DELETE WHERE` is
  `List.filter` with the negated condition, `INSERT` appends.
* Randomness (`randomBytes`, bcrypt salts) and the bcrypt hash are
  effectful in the source; here each freshly generated token string and
  each computed hash is an explicit input parameter of the operation.
* Thrown Nest exceptions become `Except.error` of `AppError`; operations
  return the pair (result-or-error, database state after the call), so the
  state at the point of a throw is preserved.
* JWT strings are modelled by the inductive `JwtInput`: a structurally
  signed token carries its payload, its `exp` claim and the secret it was
  signed with; `jwtVerify` models `jsonwebtoken.verify` (signature check =
  secret equality, `TokenExpiredError` when `exp <= now`).
* Timestamp bookkeeping columns (`created_at`, `updated_at`) are not
  modelled; no claim mentions them.
-/

namespace FireartAuth

/-! ### JavaScript number/string primitives used by the source -/

/-- Value of a list of decimal digit characters, as `parseInt` accumulates it. -/
def digitsVal (ds : List Char) : Nat :=
  ds.foldl (fun a c => a * 10 + (c.toNat - 48)) 0

/-- Parse a maximal leading run of decimal digits; `none` when there is none
(the NaN case of `parseInt`). -/
def jsParseDigits (cs : List Char) : Option Nat :=
  let ds := cs.takeWhile Char.isDigit
  if ds.isEmpty then none else some (digitsVal ds)

/-- Model of JavaScript `parseInt(s, 10)`: skip leading whitespace, optional
sign, then a maximal run of decimal digits; `none` models NaN. -/
def parseIntJs (s : String) : Option Int :=
  let cs := s.data.dropWhile Char.isWhitespace
  if cs.head? = some '-' then (jsParseDigits cs.tail).map (fun n => -(n : Int))
  else if cs.head? = some '+' then (jsParseDigits cs.tail).map (fun n => (n : Int))
  else (jsParseDigits cs).map (fun n => (n : Int))

/-- Decimal digit list of a natural number, most significant digit first.
Recursion-friendly specification of the decimal expansion; `natToJsString`
below is proved to produce exactly these characters. -/
def natDigits (n : Nat) : List Char :=
  if n < 10 then [Char.ofNat (48 + n)]
  else natDigits (n / 10) ++ [Char.ofNat (48 + n % 10)]
  decreasing_by exact Nat.div_lt_self (by omega) (by omega)

/-- Model of JavaScript `userId.toString()` for a natural number: the decimal
representation. -/
def natToJsString (n : Nat) : String := Nat.repr n

/-- JavaScript `String.prototype.trim` on a character list: strip whitespace
from both ends. -/
def trimChars (l : List Char) : List Char :=
  ((l.dropWhile Char.isWhitespace).reverse.dropWhile Char.isWhitespace).reverse

/-- JavaScript `s.trim()`. -/
def jsTrim (s : String) : String := ⟨trimChars s.data⟩

/-- Model of JavaScript `email.trim().toLowerCase()`, the email normalization
applied by `AuthService` before every store and lookup. -/
def normalizeEmail (email : String) : String :=
  ⟨(trimChars email.data).map Char.toLower⟩

/-- JavaScript `s.split(sep)` for a one-character separator, on character
lists: split at every occurrence, keeping empty pieces. -/
def splitOnChar (sep : Char) : List Char → List Char → List (List Char)
  | [], acc => [acc.reverse]
  | c :: rest, acc =>
    if c = sep then acc.reverse :: splitOnChar sep rest [] else splitOnChar sep rest (c :: acc)

/-- JavaScript `s.split(' ')` as used by `AuthGuard.extractTokenFromHeader`. -/
def jsSplitSpace (s : String) : List String :=
  (splitOnChar ' ' s.data []).map (fun l => ⟨l⟩)

/-! ### JWT model (`jwt.service.ts`) -/

/-- Payload of a decodable JWT: `jsonwebtoken` can return a bare string or an
object; the object may or may not contain the `sub` and `type` fields the
service checks with `'sub' in result && 'type' in result`. -/
inductive JwtClaims where
  | strPayload (s : String)
  | objPayload (sub : Option String) (type : Option String)
deriving DecidableEq, Repr

/-- A structurally well-formed signed token: payload, optional `exp` claim
(seconds), and the secret it was signed with. -/
structure SignedJwt where
  claims : JwtClaims
  exp : Option Nat
  secret : String
deriving DecidableEq, Repr

/-- A token string as handed to `jwt.verify`: either garbage that fails to
decode (`JsonWebTokenError`) or a structurally signed token. -/
inductive JwtInput where
  | malformed (raw : String)
  | signed (t : SignedJwt)
deriving DecidableEq, Repr

/-- Model of `jwt.verify(token, secret)` at clock time `now`: `none` models a
thrown `JsonWebTokenError` (undecodable or signature mismatch) or
`TokenExpiredError` (`exp <= now`, `jsonwebtoken` rejects at
`clockTimestamp >= exp`). -/
def jwtVerify (tok : JwtInput) (secret : String) (now : Nat) : Option JwtClaims :=
  match tok with
  | .malformed _ => none
  | .signed t =>
    if t.secret ≠ secret then none
    else
      match t.exp with
      | some e => if e ≤ now then none else some t.claims
      | none => some t.claims

/-- `JwtService.generateAccessToken`: sign `{sub: userId.toString(), type:
"access"}` with expiry `now + ttl` (ttl is the configured `JWT_EXPIRES_IN`,
default 15 minutes = 900 seconds). -/
def generateAccessToken (userId : Nat) (secret : String) (ttl : Nat) (now : Nat) : JwtInput :=
  .signed { claims := .objPayload (some (natToJsString userId)) (some "access")
            exp := some (now + ttl)
            secret := secret }

/-- `JwtService.verifyAccessToken`: verify the signature and expiry, reject
string payloads, payloads missing `sub`/`type`, a `type` other than
`"access"`, and an empty/whitespace `sub` (`!payload.sub ||
!payload.sub.trim()`). Returns the `(sub, type)` pair of the accepted
payload, `none` on every failure. -/
def verifyAccessToken (tok : JwtInput) (secret : String) (now : Nat) : Option (String × String) :=
  match jwtVerify tok secret now with
  | none => none
  | some (.strPayload _) => none
  | some (.objPayload osub otype) =>
    match osub, otype with
    | some sub, some ty =>
      if ty ≠ "access" then none
      else if sub.data.all Char.isWhitespace then none
      else some (sub, ty)
    | _, _ => none

/-- `JwtService.extractUserIdFromToken`: run `verifyAccessToken`, then
`parseInt(payload.sub, 10)`; `none` when verification failed, the parse is
NaN, or the value is not positive. -/
def extractUserIdFromToken (tok : JwtInput) (secret : String) (now : Nat) : Option Nat :=
  match verifyAccessToken tok secret now with
  | none => none
  | some (sub, _) =>
    match parseIntJs sub with
    | none => none
    | some i => if i ≤ 0 then none else some i.toNat

/-- `JwtService.verifyRefreshToken`: the source unconditionally returns
`{ valid: true }`; actual validity is checked against the database by
`AuthService.refreshToken`. -/
def verifyRefreshToken (_tok : String) : Option Unit := some ()

/-! ### Database state (`database.service.ts` table shapes) -/

/-- Row of the `users` table (timestamp columns omitted). `id` is the
`SERIAL` primary key. -/
structure User where
  id : Nat
  email : String
  passwordHash : String
  firstName : Option String
  lastName : Option String
deriving DecidableEq, Repr

/-- Row of the `refresh_tokens` table. -/
structure RefreshRow where
  userId : Nat
  token : String
  expiresAt : Nat
deriving DecidableEq, Repr

/-- Row of the `password_reset_tokens` table (`user_id` and `token` each carry
a UNIQUE constraint in the schema). -/
structure ResetRow where
  userId : Nat
  token : String
  expiresAt : Nat
deriving DecidableEq, Repr

/-- The persistent store: the three auth tables plus the `users` `SERIAL`
sequence counter. -/
structure DBState where
  users : List User
  refreshTokens : List RefreshRow
  resetTokens : List ResetRow
  nextUserId : Nat
deriving DecidableEq, Repr

/-- The Nest exception kinds thrown by the embedded code. -/
inductive AppError where
  | unauthorized (msg : String)
  | badRequest (msg : String)
  | conflict (msg : String)
  | notFound (msg : String)
  | internalServerError (msg : String)
deriving DecidableEq, Repr

/-- `SELECT ... FROM users WHERE email = $1` (the caller passes the already
normalized email, as the source does). -/
def findUserByEmail? (users : List User) (e : String) : Option User :=
  users.find? (fun u => u.email == e)

/-- Fixed refresh-token lifetime: `7 * 24 * 60 * 60` seconds. -/
def refreshTtl : Nat := 7 * 24 * 60 * 60

/-- Reset-token lifetime: 1 hour. -/
def resetTtl : Nat := 60 * 60

/-! ### `AuthService` operations (auth.service.ts)

Each operation returns `(result-or-error, state after the call)`. -/

/-- How `AuthService.signup` stores the optional last name:
`lastName?.trim() || null`. -/
def storedLastName (lastName : Option String) : Option String :=
  match lastName with
  | none => none
  | some s => if jsTrim s = "" then none else some (jsTrim s)

/-- Result shape of `AuthService.signup` (user profile plus token pair; the
profile fields other than id/email are omitted from the result as no claim
mentions them). -/
structure SignupResult where
  userId : Nat
  email : String
  accessToken : JwtInput
  refreshToken : String
deriving DecidableEq, Repr

/-- `AuthService.signup`: normalize the email, reject with
`ConflictException` when a user with that email exists, otherwise insert the
user (with the parameter `pwHash` standing for the awaited
`bcrypt.hash(password, 12)`), mint an access token and persist a fresh
refresh token (`JwtService.generateRefreshToken`, expiry `now + 7 days`,
with the parameter `freshRefresh` standing for `randomBytes(32)`). -/
def signup (st : DBState) (email firstName : String) (lastName : Option String)
    (pwHash freshRefresh secret : String) (ttl now : Nat) :
    Except AppError SignupResult × DBState :=
  let norm := normalizeEmail email
  match findUserByEmail? st.users norm with
  | some _ => (.error (.conflict "User with this email already exists"), st)
  | none =>
    let uid := st.nextUserId
    let user : User := { id := uid, email := norm, passwordHash := pwHash
                         firstName := some (jsTrim firstName)
                         lastName := storedLastName lastName }
    let st1 := { st with users := st.users ++ [user], nextUserId := uid + 1 }
    let accessToken := generateAccessToken uid secret ttl now
    let st2 := { st1 with refreshTokens :=
                   st1.refreshTokens ++ [(⟨uid, freshRefresh, now + refreshTtl⟩ : RefreshRow)] }
    (.ok { userId := uid, email := norm, accessToken := accessToken
           refreshToken := freshRefresh }, st2)

/-- Result of `AuthService.refreshToken`. -/
structure RefreshResult where
  accessToken : JwtInput
  refreshToken : String
deriving DecidableEq, Repr

/-- `AuthService.refreshToken`: `verifyRefreshToken` (always valid), then
`SELECT user_id FROM refresh_tokens WHERE token = $1 AND expires_at > NOW()`;
no row means `UnauthorizedException`. On a hit, mint a new access token,
insert a fresh refresh row (expiry `now + 7 days`), then
`DELETE FROM refresh_tokens WHERE token = $1`. -/
def refreshTokenOp (st : DBState) (tok : String) (secret : String) (ttl : Nat)
    (freshRefresh : String) (now : Nat) : Except AppError RefreshResult × DBState :=
  match verifyRefreshToken tok with
  | none => (.error (.unauthorized "Invalid refresh token"), st)
  | some _ =>
    match st.refreshTokens.find? (fun r => r.token == tok && now < r.expiresAt) with
    | none => (.error (.unauthorized "Invalid or expired refresh token"), st)
    | some row =>
      let userId := row.userId
      let newAccess := generateAccessToken userId secret ttl now
      let st1 := { st with refreshTokens :=
                     st.refreshTokens ++ [(⟨userId, freshRefresh, now + refreshTtl⟩ : RefreshRow)] }
      let st2 := { st1 with refreshTokens :=
                     st1.refreshTokens.filter (fun r => !(r.token == tok)) }
      (.ok { accessToken := newAccess, refreshToken := freshRefresh }, st2)

/-- `AuthService.logout`: `DELETE FROM refresh_tokens WHERE token = $1`;
`dbFails` models the underlying store operation throwing, in which case the
catch block swallows the error (leaving the state as it was) and still
returns the success message. -/
def logout (st : DBState) (tok : String) (dbFails : Bool) :
    Except AppError String × DBState :=
  if dbFails then (.ok "Logged out successfully", st)
  else (.ok "Logged out successfully",
        { st with refreshTokens := st.refreshTokens.filter (fun r => !(r.token == tok)) })

/-- `AuthService.cleanupExpiredPasswordResetTokens`:
`DELETE FROM password_reset_tokens WHERE expires_at < NOW()`. -/
def cleanupExpiredResetTokens (rows : List ResetRow) (now : Nat) : List ResetRow :=
  rows.filter (fun r => !(decide (r.expiresAt < now)))

/-- `INSERT INTO password_reset_tokens ... ON CONFLICT (user_id) DO UPDATE SET
token = $2, expires_at = $3`: replace the row of `uid` when one exists,
otherwise append. -/
def upsertResetRow (rows : List ResetRow) (uid : Nat) (tok : String) (exp : Nat) :
    List ResetRow :=
  if rows.any (fun r => r.userId == uid) then
    rows.map (fun r => if r.userId == uid then { r with token := tok, expiresAt := exp } else r)
  else rows ++ [⟨uid, tok, exp⟩]

/-- The anti-enumeration message returned by `requestPasswordReset` on every
path. -/
def resetRequestMsg : String := "If the email exists, a password reset link has been sent"

/-- `AuthService.requestPasswordReset`: look the user up by normalized email
(generic message, no state change, when absent), sweep globally expired reset
rows, then upsert a fresh token (parameter `freshTok` standing for
`randomBytes(32)`) with expiry `now + 1 hour`. -/
def requestPasswordReset (st : DBState) (email : String) (freshTok : String) (now : Nat) :
    Except AppError String × DBState :=
  match findUserByEmail? st.users (normalizeEmail email) with
  | none => (.ok resetRequestMsg, st)
  | some u =>
    let st1 := { st with resetTokens := cleanupExpiredResetTokens st.resetTokens now }
    let st2 := { st1 with resetTokens :=
                   upsertResetRow st1.resetTokens u.id freshTok (now + resetTtl) }
    (.ok resetRequestMsg, st2)

/-- Result shape of `validatePasswordResetToken`. -/
structure ValidateResult where
  valid : Bool
  message : Option String
deriving DecidableEq, Repr

/-- `AuthService.validatePasswordResetToken`: `SELECT ... WHERE token = $1`;
no row → invalid "Invalid reset token"; row with `expires_at < now` →
`DELETE ... WHERE token = $1` and invalid "Reset token has expired";
live row → valid, no state change. -/
def validatePasswordResetToken (st : DBState) (tok : String) (now : Nat) :
    ValidateResult × DBState :=
  match st.resetTokens.find? (fun r => r.token == tok) with
  | none => ({ valid := false, message := some "Invalid reset token" }, st)
  | some row =>
    if row.expiresAt < now then
      ({ valid := false, message := some "Reset token has expired" },
       { st with resetTokens := st.resetTokens.filter (fun r => !(r.token == tok)) })
    else ({ valid := true, message := none }, st)

/-- `AuthService.confirmPasswordReset`: validate the token (throwing
`BadRequestException` with the validation message on failure), re-select the
row, update the owning user's `password_hash` (parameter `newHash` standing
for the awaited `bcrypt.hash(newPassword, 12)`), and delete the used row.
The `find? = none` branch after a valid validation is unreachable; in the
source it would crash on `rows[0].user_id` and be mapped by the catch block
to a generic `BadRequestException`. -/
def confirmPasswordReset (st : DBState) (tok : String) (newHash : String) (now : Nat) :
    Except AppError String × DBState :=
  let v := validatePasswordResetToken st tok now
  let st1 := v.2
  if v.1.valid = false then
    (.error (.badRequest (v.1.message.getD "Invalid or expired reset token")), st1)
  else
    match st1.resetTokens.find? (fun r => r.token == tok) with
    | none => (.error (.badRequest "Failed to reset password. Please try again."), st1)
    | some row =>
      let uid := row.userId
      let newUsers := st1.users.map
        (fun u => if u.id == uid then { u with passwordHash := newHash } else u)
      let st2 := { st1 with users := newUsers }
      let st3 := { st2 with resetTokens := st2.resetTokens.filter (fun r => !(r.token == tok)) }
      (.ok "Password reset successfully", st3)

/-- Public profile returned by `AuthService.validateUser`. -/
structure PublicUser where
  id : Nat
  email : String
  firstName : Option String
  lastName : Option String
deriving DecidableEq, Repr

/-- `AuthService.validateUser`: `SELECT ... FROM users WHERE id = $1`;
no row → `NotFoundException`. -/
def validateUser (st : DBState) (userId : Nat) : Except AppError PublicUser × DBState :=
  match st.users.find? (fun u => u.id == userId) with
  | none => (.error (.notFound s!"User with ID {userId} not found"), st)
  | some u => (.ok { id := u.id, email := u.email
                     firstName := u.firstName, lastName := u.lastName }, st)

/-! ### `AuthGuard` (auth.guard.ts) -/

/-- The incoming request as the guard sees it: the raw `Authorization`
header, if present. -/
structure GuardRequest where
  authorization : Option String
deriving DecidableEq, Repr

/-- `AuthGuard.extractTokenFromHeader`:
`const [type, token] = header.split(' ') ?? []; return type === 'Bearer' ?
token : undefined`. `none` models JavaScript `undefined` (no header, no
second word, or a scheme other than `Bearer`). -/
def extractTokenFromHeader (authHeader : Option String) : Option String :=
  match authHeader with
  | none => none
  | some h =>
    match jsSplitSpace h with
    | ty :: tok :: _ => if ty = "Bearer" then some tok else none
    | _ => none

/-- `AuthGuard.canActivate`. `parseJwt` is the wire codec giving the
`JwtInput` a presented token string decodes to. Mirrors the source: missing
or falsy token (`!token`, so the empty string too) → Unauthorized "Access
token is required"; `extractUserIdFromToken` null → Unauthorized "Invalid
access token"; then `validateUser`, whose thrown exceptions reach the catch
block, which rethrows `UnauthorizedException` and converts every other
exception (including `validateUser`'s `NotFoundException`) into
`InternalServerErrorException('Authentication service error')`. -/
def canActivate (st : DBState) (parseJwt : String → JwtInput) (req : GuardRequest)
    (secret : String) (now : Nat) : Except AppError PublicUser × DBState :=
  match extractTokenFromHeader req.authorization with
  | none => (.error (.unauthorized "Access token is required"), st)
  | some tokStr =>
    if tokStr = "" then (.error (.unauthorized "Access token is required"), st)
    else
      match extractUserIdFromToken (parseJwt tokStr) secret now with
      | none => (.error (.unauthorized "Invalid access token"), st)
      | some userId =>
        match validateUser st userId with
        | (.ok user, st') => (.ok user, st')
        | (.error (.unauthorized m), st') => (.error (.unauthorized m), st')
        | (.error _, st') => (.error (.internalServerError "Authentication service error"), st')

/-! ### Verification-check predicates (the individual checks named by the
spec for `verifyAccessToken` / `extractUserIdFromToken`) -/

/-- The token carries an `exp` claim that has elapsed (`TokenExpiredError`). -/
def tokenExpired (tok : JwtInput) (now : Nat) : Bool :=
  match tok with
  | .malformed _ => false
  | .signed t =>
    match t.exp with
    | some e => decide (e ≤ now)
    | none => false

/-- The token is malformed or its signature does not verify under `secret`:
undecodable, signed with a different secret, a bare-string payload, or a
payload missing the `sub`/`type` fields. -/
def tokenMalformedOrBadSig (tok : JwtInput) (secret : String) : Bool :=
  match tok with
  | .malformed _ => true
  | .signed t =>
    (t.secret != secret) ||
    (match t.claims with
     | .strPayload _ => true
     | .objPayload osub otype => osub.isNone || otype.isNone)

/-- The payload's `type` field is present but not `"access"`. -/
def tokenWrongType (tok : JwtInput) : Bool :=
  match tok with
  | .malformed _ => false
  | .signed t =>
    match t.claims with
    | .objPayload _ (some ty) => ty != "access"
    | _ => false

/-- The payload's `sub` field is present but empty/whitespace, is NaN under
`parseInt`, or parses to a non-positive value. -/
def tokenBadSubject (tok : JwtInput) : Bool :=
  match tok with
  | .malformed _ => false
  | .signed t =>
    match t.claims with
    | .objPayload (some sub) _ =>
      sub.data.all Char.isWhitespace ||
      (match parseIntJs sub with
       | none => true
       | some i => decide (i ≤ 0))
    | _ => false

/-- The positive user id the payload's `sub` field parses to, when it does. -/
def tokenSubjectId (tok : JwtInput) : Option Nat :=
  match tok with
  | .malformed _ => none
  | .signed t =>
    match t.claims with
    | .objPayload (some sub) _ =>
      match parseIntJs sub with
      | none => none
      | some i => if i ≤ 0 then none else some i.toNat
    | _ => none

/-- Whether a result is a thrown `BadRequestException`. -/
def isBadRequestErr {α : Type} (r : Except AppError α) : Bool :=
  match r with
  | .error (.badRequest _) => true
  | _ => false

/-! ### Lemmas: decimal strings round-trip through `parseIntJs` -/

lemma char_digit_props (d : Nat) (h : d < 10) :
    (Char.ofNat (48 + d)).isDigit = true ∧ (Char.ofNat (48 + d)).isWhitespace = false ∧
    Char.ofNat (48 + d) ≠ '-' ∧ Char.ofNat (48 + d) ≠ '+' ∧ (Char.ofNat (48 + d)).toNat = 48 + d := by
  interval_cases d <;> refine ⟨by decide, by decide, by decide, by decide, by decide⟩

lemma natDigits_shape (n : Nat) : ∀ c ∈ natDigits n, ∃ d, d < 10 ∧ c = Char.ofNat (48 + d) := by
  induction n using Nat.strong_induction_on with
  | _ n ih =>
    rw [natDigits]
    split
    next h =>
      intro c hc
      rw [List.mem_singleton] at hc
      exact ⟨n, h, hc⟩
    next h =>
      intro c hc
      rcases List.mem_append.1 hc with h1 | h1
      · exact ih (n / 10) (Nat.div_lt_self (by omega) (by omega)) c h1
      · rw [List.mem_singleton] at h1
        exact ⟨n % 10, Nat.mod_lt _ (by omega), h1⟩

lemma digitsVal_append1 (ds : List Char) (c : Char) :
    digitsVal (ds ++ [c]) = digitsVal ds * 10 + (c.toNat - 48) := by
  simp [digitsVal, List.foldl_append]

lemma digitsVal_natDigits (n : Nat) : digitsVal (natDigits n) = n := by
  induction n using Nat.strong_induction_on with
  | _ n ih =>
    rw [natDigits]
    split
    next h =>
      have hc := (char_digit_props n h).2.2.2.2
      simp [digitsVal, hc]
    next h =>
      rw [digitsVal_append1, ih (n / 10) (Nat.div_lt_self (by omega) (by omega)),
        (char_digit_props (n % 10) (Nat.mod_lt _ (by omega))).2.2.2.2]
      omega

lemma natDigits_ne_nil (n : Nat) : natDigits n ≠ [] := by
  rw [natDigits]
  split <;> simp

lemma digitChar_eq_ofNat (m : Nat) (h : m < 10) : Nat.digitChar m = Char.ofNat (48 + m) := by
  interval_cases m <;> decide

lemma toDigitsCore_eq_natDigits (n : Nat) : ∀ fuel acc, n < fuel →
    Nat.toDigitsCore 10 fuel n acc = natDigits n ++ acc := by
  induction n using Nat.strong_induction_on with
  | _ n ih =>
    intro fuel acc h
    cases fuel with
    | zero => omega
    | succ fuel =>
      rw [Nat.toDigitsCore]
      by_cases h10 : n / 10 = 0
      · have hn : n < 10 := by omega
        simp only [h10, if_pos]
        rw [natDigits, if_pos hn, digitChar_eq_ofNat (n % 10) (Nat.mod_lt _ (by omega)),
          Nat.mod_eq_of_lt hn]
        rfl
      · have hn : ¬ n < 10 := by omega
        rw [if_neg h10]
        have hdiv : n / 10 < fuel := by
          have h2 : n / 10 < n := Nat.div_lt_self (by omega) (by omega)
          omega
        rw [ih (n / 10) (Nat.div_lt_self (by omega) (by omega)) fuel _ hdiv]
        conv_rhs => rw [natDigits, if_neg hn]
        rw [digitChar_eq_ofNat (n % 10) (Nat.mod_lt _ (by omega)), List.append_assoc]
        rfl

lemma natToJsString_data (n : Nat) : (natToJsString n).data = natDigits n := by
  show (Nat.repr n).data = _
  unfold Nat.repr Nat.toDigits
  rw [toDigitsCore_eq_natDigits n (n + 1) [] (by omega)]
  simp [List.asString]

lemma takeWhile_of_all {α : Type} {p : α → Bool} :
    ∀ {l : List α}, (∀ c ∈ l, p c = true) → l.takeWhile p = l := by
  intro l h
  induction l with
  | nil => rfl
  | cons a t ih =>
    rw [List.takeWhile_cons, h a (List.mem_cons_self a t)]
    simp only [ite_true]
    rw [ih (fun c hc => h c (List.mem_cons_of_mem a hc))]

lemma parseIntJs_natToJsString (n : Nat) : parseIntJs (natToJsString n) = some (n : Int) := by
  obtain ⟨c, cs, hcons⟩ : ∃ c cs, natDigits n = c :: cs := by
    cases h : natDigits n with
    | nil => exact absurd h (natDigits_ne_nil n)
    | cons c cs => exact ⟨c, cs, rfl⟩
  obtain ⟨d, hd, hcd⟩ := natDigits_shape n c (hcons ▸ List.mem_cons_self c cs)
  have props := char_digit_props d hd
  have hcw : c.isWhitespace = false := by rw [hcd]; exact props.2.1
  have hcm : c ≠ '-' := by rw [hcd]; exact props.2.2.1
  have hcp : c ≠ '+' := by rw [hcd]; exact props.2.2.2.1
  have hall : ∀ x ∈ c :: cs, x.isDigit = true := by
    intro x hx
    obtain ⟨e, he, rfl⟩ := natDigits_shape n x (hcons ▸ hx)
    exact (char_digit_props e he).1
  unfold parseIntJs
  rw [natToJsString_data, hcons, List.dropWhile_cons, hcw]
  simp only [Bool.false_eq_true, if_false, List.head?_cons]
  rw [if_neg (by simpa using hcm), if_neg (by simpa using hcp)]
  unfold jsParseDigits
  rw [takeWhile_of_all hall]
  simp only [List.isEmpty_cons, if_false, Bool.false_eq_true]
  rw [← hcons, digitsVal_natDigits]
  rfl

lemma natToJsString_not_blank (n : Nat) :
    ((natToJsString n).data.all Char.isWhitespace) = false := by
  obtain ⟨c, cs, hcons⟩ : ∃ c cs, natDigits n = c :: cs := by
    cases h : natDigits n with
    | nil => exact absurd h (natDigits_ne_nil n)
    | cons c cs => exact ⟨c, cs, rfl⟩
  obtain ⟨d, hd, hcd⟩ := natDigits_shape n c (hcons ▸ List.mem_cons_self c cs)
  rw [natToJsString_data, hcons, List.all_cons, hcd, (char_digit_props d hd).2.1]
  rfl

/-- Shared round-trip fact: a freshly minted access token, verified with the
signing secret before expiry, yields back the issuing user id. -/
lemma extract_generate (u : Nat) (hu : 0 < u) (secret : String) (ttl now now' : Nat)
    (hlt : now' < now + ttl) :
    extractUserIdFromToken (generateAccessToken u secret ttl now) secret now' = some u := by
  have h1 : jwtVerify (generateAccessToken u secret ttl now) secret now'
      = some (.objPayload (some (natToJsString u)) (some "access")) := by
    unfold jwtVerify generateAccessToken
    dsimp only
    rw [if_neg (fun hh => hh rfl)]
    exact if_neg (by omega)
  have h2 : verifyAccessToken (generateAccessToken u secret ttl now) secret now'
      = some (natToJsString u, "access") := by
    unfold verifyAccessToken
    rw [h1]
    dsimp only
    rw [if_neg (fun hh => hh rfl)]
    simp only [natToJsString_not_blank, Bool.false_eq_true, if_false]
  unfold extractUserIdFromToken
  rw [h2]
  dsimp only
  rw [parseIntJs_natToJsString]
  dsimp only
  rw [if_neg (by exact_mod_cast Nat.not_le.mpr (by exact_mod_cast hu) : ¬ (u : Int) ≤ 0)]
  simp

/-- Shared: a fresh access token fails `verifyAccessToken` once its TTL has
elapsed. -/
lemma verify_generate_expired (u : Nat) (secret : String) (ttl now now' : Nat)
    (h : now + ttl ≤ now') :
    verifyAccessToken (generateAccessToken u secret ttl now) secret now' = none := by
  have h1 : jwtVerify (generateAccessToken u secret ttl now) secret now' = none := by
    unfold jwtVerify generateAccessToken
    dsimp only
    rw [if_neg (fun hh => hh rfl)]
    exact if_pos h
  unfold verifyAccessToken
  rw [h1]

/-- Shared: a fresh access token fails `verifyAccessToken` under any secret
other than its signing secret. -/
lemma verify_generate_wrong_secret (u : Nat) (secret secret' : String) (ttl now now' : Nat)
    (h : secret' ≠ secret) :
    verifyAccessToken (generateAccessToken u secret ttl now) secret' now' = none := by
  have h1 : jwtVerify (generateAccessToken u secret ttl now) secret' now' = none := by
    unfold jwtVerify generateAccessToken
    dsimp only
    exact if_pos (fun hh => h hh.symm)
  unfold verifyAccessToken
  rw [h1]

/-- Shared: `extractUserIdFromToken` is `none` whenever `verifyAccessToken`
is. -/
lemma extract_none_of_verify_none (tok : JwtInput) (secret : String) (now : Nat)
    (h : verifyAccessToken tok secret now = none) :
    extractUserIdFromToken tok secret now = none := by
  unfold extractUserIdFromToken
  rw [h]

/-! ### Claim theorems -/

/-- C2: Access-token round-trip: for every positive user id `u`, a token
produced by `generateAccessToken u` is accepted by
`verifyAccessToken`/`extractUserIdFromToken` (yielding `u`) at any time
before the configured TTL has elapsed, is rejected at any time from TTL
expiry on, and is always rejected when verified under any secret different
from the signing one. -/
theorem accessToken_roundtrip (u : Nat) (secret : String) (ttl now now' : Nat) (hu : 0 < u) :
    (now' < now + ttl →
      extractUserIdFromToken (generateAccessToken u secret ttl now) secret now' = some u) ∧
    (now + ttl ≤ now' →
      verifyAccessToken (generateAccessToken u secret ttl now) secret now' = none ∧
      extractUserIdFromToken (generateAccessToken u secret ttl now) secret now' = none) ∧
    (∀ secret', secret' ≠ secret →
      verifyAccessToken (generateAccessToken u secret ttl now) secret' now' = none ∧
      extractUserIdFromToken (generateAccessToken u secret ttl now) secret' now' = none) := by
  refine ⟨fun hlt => extract_generate u hu secret ttl now now' hlt, fun hge => ?_, fun s' hs => ?_⟩
  · have hv := verify_generate_expired u secret ttl now now' hge
    exact ⟨hv, extract_none_of_verify_none _ _ _ hv⟩
  · have hv := verify_generate_wrong_secret u secret s' ttl now now' hs
    exact ⟨hv, extract_none_of_verify_none _ _ _ hv⟩

/-- Witness for C2 at user id 3, secret "k", TTL 900, issued at 5: accepted
at 100, rejected at 905, rejected under secret "other". -/
theorem accessToken_roundtrip_witness :
    0 < 3 ∧
    extractUserIdFromToken (generateAccessToken 3 "k" 900 5) "k" 100 = some 3 ∧
    extractUserIdFromToken (generateAccessToken 3 "k" 900 5) "k" 905 = none ∧
    verifyAccessToken (generateAccessToken 3 "k" 900 5) "other" 10 = none :=
  ⟨by decide, (accessToken_roundtrip 3 "k" 900 5 100 (by decide)).1 (by decide),
    ((accessToken_roundtrip 3 "k" 900 5 905 (by decide)).2.1 (by decide)).2,
    ((accessToken_roundtrip 3 "k" 900 5 10 (by decide)).2.2 "other" (by decide)).1⟩

/-- C9: Logout always succeeds and is idempotent: for every state, token and
store-failure behaviour, `logout` returns the success message (never an
error), and a second `logout` on the resulting state does too. -/
theorem logout_always_succeeds_idempotent (st : DBState) (tok : String) (f1 f2 : Bool) :
    (logout st tok f1).1 = .ok "Logged out successfully" ∧
    (logout (logout st tok f1).2 tok f2).1 = .ok "Logged out successfully" := by
  cases f1 <;> cases f2 <;> exact ⟨rfl, rfl⟩

/-- C1: Refresh rotation is single-use: when `refreshToken` succeeds on a
presented token `t`, every row for `t` is gone from the `refresh_tokens`
ledger of the resulting state, and a second `refreshToken t` on that state
fails with Unauthorized (whatever secret, TTL, fresh token and time it is
called with). -/
theorem refreshToken_rotation_single_use (st : DBState) (t secret fresh : String)
    (ttl now : Nat)
    (h : (refreshTokenOp st t secret ttl fresh now).1.isOk = true) :
    (∀ r ∈ (refreshTokenOp st t secret ttl fresh now).2.refreshTokens, r.token ≠ t) ∧
    (∀ secret' ttl' fresh' now',
      (refreshTokenOp (refreshTokenOp st t secret ttl fresh now).2 t secret' ttl' fresh' now').1
        = .error (.unauthorized "Invalid or expired refresh token")) := by
  cases hfind : st.refreshTokens.find? (fun r => r.token == t && now < r.expiresAt) with
  | none =>
    rw [show refreshTokenOp st t secret ttl fresh now
        = (.error (.unauthorized "Invalid or expired refresh token"), st) by
      unfold refreshTokenOp verifyRefreshToken
      dsimp only
      rw [hfind]] at h
    simp [Except.isOk, Except.toBool] at h
  | some row =>
    have hred : refreshTokenOp st t secret ttl fresh now
        = (.ok { accessToken := generateAccessToken row.userId secret ttl now
                 refreshToken := fresh },
           (⟨st.users,
             List.filter (fun r => !(r.token == t))
               (st.refreshTokens ++ [(⟨row.userId, fresh, now + refreshTtl⟩ : RefreshRow)]),
             st.resetTokens, st.nextUserId⟩ : DBState)) := by
      unfold refreshTokenOp verifyRefreshToken
      dsimp only
      rw [hfind]
    rw [hred]
    have hmem : ∀ r ∈ List.filter (fun r => !(r.token == t))
        (st.refreshTokens ++ [(⟨row.userId, fresh, now + refreshTtl⟩ : RefreshRow)]),
        r.token ≠ t := by
      intro r hr
      have h2 := (List.mem_filter.1 hr).2
      simpa using h2
    refine ⟨hmem, fun secret' ttl' fresh' now' => ?_⟩
    have hnone : (List.filter (fun r => !(r.token == t))
        (st.refreshTokens ++ [(⟨row.userId, fresh, now + refreshTtl⟩ : RefreshRow)])).find?
          (fun r => r.token == t && now' < r.expiresAt) = none := by
      rw [List.find?_eq_none]
      intro x hx
      have hxt : x.token ≠ t := hmem x hx
      simp [hxt]
    unfold refreshTokenOp verifyRefreshToken
    dsimp only
    rw [hnone]

/-- Witness for C1 on a one-row ledger: the consumed token is rejected by the
second rotation. -/
theorem refreshToken_rotation_single_use_witness :
    (refreshTokenOp
        (refreshTokenOp ⟨[], [⟨1, "t0", 10⟩], [], 1⟩ "t0" "s" 900 "n0" 0).2
        "t0" "s2" 900 "n1" 0).1
      = .error (.unauthorized "Invalid or expired refresh token") :=
  (refreshToken_rotation_single_use ⟨[], [⟨1, "t0", 10⟩], [], 1⟩ "t0" "s" "n0" 900 0
    (by decide)).2 "s2" 900 "n1" 0

/-- C7: Reset-token validation postconditions: no matching row → invalid
"unknown token" with no state change; matching but expired row → the row is
deleted and the result is invalid "expired"; matching live row → valid with
no state change, and validation is repeatable with the same result. -/
theorem validateReset_postconditions (st : DBState) (tok : String) (now : Nat) :
    (st.resetTokens.find? (fun r => r.token == tok) = none →
      validatePasswordResetToken st tok now
        = ({ valid := false, message := some "Invalid reset token" }, st)) ∧
    (∀ row, st.resetTokens.find? (fun r => r.token == tok) = some row →
      (row.expiresAt < now →
        validatePasswordResetToken st tok now
          = ({ valid := false, message := some "Reset token has expired" },
             { st with resetTokens := st.resetTokens.filter (fun r => !(r.token == tok)) })) ∧
      (¬ row.expiresAt < now →
        validatePasswordResetToken st tok now = ({ valid := true, message := none }, st) ∧
        validatePasswordResetToken (validatePasswordResetToken st tok now).2 tok now
          = validatePasswordResetToken st tok now)) := by
  refine ⟨fun hnone => ?_, fun row hrow => ⟨fun hexp => ?_, fun hlive => ?_⟩⟩
  · unfold validatePasswordResetToken
    rw [hnone]
  · unfold validatePasswordResetToken
    rw [hrow]
    dsimp only
    rw [if_pos hexp]
  · have h1 : validatePasswordResetToken st tok now = ({ valid := true, message := none }, st) := by
      unfold validatePasswordResetToken
      rw [hrow]
      dsimp only
      rw [if_neg hlive]
    refine ⟨h1, ?_⟩
    rw [h1]
    exact h1

/-- Witness for C7: the three postconditions at concrete one-row states (no
match, expired match, live match). -/
theorem validateReset_postconditions_witness :
    (validatePasswordResetToken ⟨[], [], [], 1⟩ "x" 0
      = ({ valid := false, message := some "Invalid reset token" }, ⟨[], [], [], 1⟩)) ∧
    (validatePasswordResetToken ⟨[], [], [⟨1, "x", 3⟩], 1⟩ "x" 9
      = ({ valid := false, message := some "Reset token has expired" }, ⟨[], [], [], 1⟩)) ∧
    (validatePasswordResetToken ⟨[], [], [⟨1, "x", 9⟩], 1⟩ "x" 3
      = ({ valid := true, message := none }, ⟨[], [], [⟨1, "x", 9⟩], 1⟩)) :=
  ⟨(validateReset_postconditions ⟨[], [], [], 1⟩ "x" 0).1 (by decide),
    ((validateReset_postconditions ⟨[], [], [⟨1, "x", 3⟩], 1⟩ "x" 9).2 ⟨1, "x", 3⟩
      (by decide)).1 (by decide),
    (((validateReset_postconditions ⟨[], [], [⟨1, "x", 9⟩], 1⟩ "x" 3).2 ⟨1, "x", 9⟩
      (by decide)).2 (by decide)).1⟩

/-- C10: A failed `confirmPasswordReset` (unknown, expired, or otherwise
invalid token) raises `BadRequestException` and leaves the `users` table —
in particular every stored password hash — unchanged. -/
theorem confirmReset_failure_frame (st : DBState) (tok newHash : String) (now : Nat)
    (h : (confirmPasswordReset st tok newHash now).1.isOk = false) :
    isBadRequestErr (confirmPasswordReset st tok newHash now).1 = true ∧
    (confirmPasswordReset st tok newHash now).2.users = st.users := by
  cases hfind : st.resetTokens.find? (fun r => r.token == tok) with
  | none =>
    have hv : validatePasswordResetToken st tok now
        = ({ valid := false, message := some "Invalid reset token" }, st) := by
      unfold validatePasswordResetToken
      rw [hfind]
    unfold confirmPasswordReset
    rw [hv]
    simp [isBadRequestErr]
  | some row =>
    by_cases hexp : row.expiresAt < now
    · have hv : validatePasswordResetToken st tok now
          = ({ valid := false, message := some "Reset token has expired" },
             { st with resetTokens := st.resetTokens.filter (fun r => !(r.token == tok)) }) := by
        unfold validatePasswordResetToken
        rw [hfind]
        dsimp only
        rw [if_pos hexp]
      unfold confirmPasswordReset
      rw [hv]
      simp [isBadRequestErr]
    · have hv : validatePasswordResetToken st tok now
          = ({ valid := true, message := none }, st) := by
        unfold validatePasswordResetToken
        rw [hfind]
        dsimp only
        rw [if_neg hexp]
      unfold confirmPasswordReset at h
      rw [hv] at h
      dsimp only at h
      rw [if_neg (by simp)] at h
      rw [hfind] at h
      simp [Except.isOk, Except.toBool] at h

/-- C8: Reset confirmation is single-use: when `confirmPasswordReset`
succeeds on token `t`, the matched row was live, the owning user's password
hash is updated, every row for `t` is gone from the ledger, and a repeated
`confirmPasswordReset` with `t` on the resulting state fails with
BadRequest. -/
theorem confirmReset_single_use (st : DBState) (tok newHash : String) (now : Nat)
    (h : (confirmPasswordReset st tok newHash now).1.isOk = true) :
    (∃ row, st.resetTokens.find? (fun r => r.token == tok) = some row ∧
      ¬ row.expiresAt < now ∧
      (confirmPasswordReset st tok newHash now).2.users
        = List.map (fun u => if u.id == row.userId then { u with passwordHash := newHash } else u)
            st.users) ∧
    (∀ r ∈ (confirmPasswordReset st tok newHash now).2.resetTokens, r.token ≠ tok) ∧
    (∀ newHash' now',
      (confirmPasswordReset (confirmPasswordReset st tok newHash now).2 tok newHash' now').1
        = .error (.badRequest "Invalid reset token")) := by
  cases hfind : st.resetTokens.find? (fun r => r.token == tok) with
  | none =>
    have hv : validatePasswordResetToken st tok now
        = ({ valid := false, message := some "Invalid reset token" }, st) := by
      unfold validatePasswordResetToken
      rw [hfind]
    unfold confirmPasswordReset at h
    rw [hv] at h
    simp [Except.isOk, Except.toBool] at h
  | some row =>
    by_cases hexp : row.expiresAt < now
    · have hv : validatePasswordResetToken st tok now
          = ({ valid := false, message := some "Reset token has expired" },
             { st with resetTokens := st.resetTokens.filter (fun r => !(r.token == tok)) }) := by
        unfold validatePasswordResetToken
        rw [hfind]
        dsimp only
        rw [if_pos hexp]
      unfold confirmPasswordReset at h
      rw [hv] at h
      simp [Except.isOk, Except.toBool] at h
    · have hv : validatePasswordResetToken st tok now
          = ({ valid := true, message := none }, st) := by
        unfold validatePasswordResetToken
        rw [hfind]
        dsimp only
        rw [if_neg hexp]
      have hred : confirmPasswordReset st tok newHash now
          = (.ok "Password reset successfully",
             (⟨List.map (fun u => if u.id == row.userId then { u with passwordHash := newHash } else u)
                 st.users,
               st.refreshTokens,
               List.filter (fun r => !(r.token == tok)) st.resetTokens,
               st.nextUserId⟩ : DBState)) := by
        unfold confirmPasswordReset
        rw [hv]
        dsimp only
        rw [if_neg (by simp)]
        rw [hfind]
      rw [hred]
      have hmem : ∀ r ∈ List.filter (fun r => !(r.token == tok)) st.resetTokens,
          r.token ≠ tok := by
        intro r hr
        have h2 := (List.mem_filter.1 hr).2
        simpa using h2
      refine ⟨⟨row, rfl, hexp, rfl⟩, hmem, fun newHash' now' => ?_⟩
      have hnone : (List.filter (fun r => !(r.token == tok)) st.resetTokens).find?
          (fun r => r.token == tok) = none := by
        rw [List.find?_eq_none]
        intro x hx
        simpa using hmem x hx
      have hv2 : validatePasswordResetToken
          (⟨List.map (fun u => if u.id == row.userId then { u with passwordHash := newHash } else u)
              st.users,
            st.refreshTokens,
            List.filter (fun r => !(r.token == tok)) st.resetTokens,
            st.nextUserId⟩ : DBState) tok now'
          = ({ valid := false, message := some "Invalid reset token" },
             (⟨List.map (fun u => if u.id == row.userId then { u with passwordHash := newHash } else u)
                 st.users,
               st.refreshTokens,
               List.filter (fun r => !(r.token == tok)) st.resetTokens,
               st.nextUserId⟩ : DBState)) := by
        unfold validatePasswordResetToken
        rw [hnone]
      unfold confirmPasswordReset
      rw [hv2]
      rfl

/-- Witness for C8: after a successful confirmation the same token is
rejected with BadRequest. -/
theorem confirmReset_single_use_witness :
    (confirmPasswordReset
        (confirmPasswordReset ⟨[⟨1, "e", "H", none, none⟩], [], [⟨1, "r0", 50⟩], 2⟩
          "r0" "H2" 10).2
        "r0" "H3" 11).1
      = .error (.badRequest "Invalid reset token") :=
  (confirmReset_single_use ⟨[⟨1, "e", "H", none, none⟩], [], [⟨1, "r0", 50⟩], 2⟩ "r0" "H2" 10
    (by decide)).2.2 "H3" 11

/-- C5: Signup uniqueness under normalization: when a signup succeeds, the
stored email is the trim+lowercase normalized form, and a second signup
whose email normalizes to the same string fails with Conflict. -/
theorem signup_unique_normalized_email (st : DBState)
    (e1 f1 : String) (l1 : Option String) (hash1 r1 sec1 : String) (ttl1 now1 : Nat)
    (e2 f2 : String) (l2 : Option String) (hash2 r2 sec2 : String) (ttl2 now2 : Nat)
    (hnorm : normalizeEmail e2 = normalizeEmail e1)
    (hok : (signup st e1 f1 l1 hash1 r1 sec1 ttl1 now1).1.isOk = true) :
    (signup st e1 f1 l1 hash1 r1 sec1 ttl1 now1).2.users
      = st.users ++ [{ id := st.nextUserId, email := normalizeEmail e1, passwordHash := hash1,
                       firstName := some (jsTrim f1), lastName := storedLastName l1 }] ∧
    (signup (signup st e1 f1 l1 hash1 r1 sec1 ttl1 now1).2 e2 f2 l2 hash2 r2 sec2 ttl2 now2).1
      = .error (.conflict "User with this email already exists") := by
  cases hfe : findUserByEmail? st.users (normalizeEmail e1) with
  | some u =>
    unfold signup at hok
    dsimp only at hok
    rw [hfe] at hok
    simp [Except.isOk, Except.toBool] at hok
  | none =>
    have hred : signup st e1 f1 l1 hash1 r1 sec1 ttl1 now1
        = (.ok { userId := st.nextUserId, email := normalizeEmail e1
                 accessToken := generateAccessToken st.nextUserId sec1 ttl1 now1
                 refreshToken := r1 },
           (⟨st.users ++ [{ id := st.nextUserId, email := normalizeEmail e1,
                            passwordHash := hash1, firstName := some (jsTrim f1),
                            lastName := storedLastName l1 }],
             st.refreshTokens ++ [(⟨st.nextUserId, r1, now1 + refreshTtl⟩ : RefreshRow)],
             st.resetTokens, st.nextUserId + 1⟩ : DBState)) := by
      unfold signup
      dsimp only
      rw [hfe]
    rw [hred]
    refine ⟨rfl, ?_⟩
    have hfe2 : findUserByEmail?
        (st.users ++ [{ id := st.nextUserId, email := normalizeEmail e1,
                        passwordHash := hash1, firstName := some (jsTrim f1),
                        lastName := storedLastName l1 }]) (normalizeEmail e2)
        = some { id := st.nextUserId, email := normalizeEmail e1,
                 passwordHash := hash1, firstName := some (jsTrim f1),
                 lastName := storedLastName l1 } := by
      unfold findUserByEmail? at hfe ⊢
      rw [hnorm, List.find?_append, hfe]
      simp
    unfold signup
    dsimp only
    rw [hfe2]

/-- Witness for C5: a second signup with a differently-cased, padded version
of the same email is rejected with Conflict. -/
theorem signup_unique_normalized_email_witness :
    (signup (signup ⟨[], [], [], 1⟩ " A@x.com " "Bob" none "H" "r0" "k" 900 0).2
        "a@X.COM" "Eve" none "H2" "r1" "k" 900 5).1
      = .error (.conflict "User with this email already exists") :=
  (signup_unique_normalized_email ⟨[], [], [], 1⟩ " A@x.com " "Bob" none "H" "r0" "k" 900 0
    "a@X.COM" "Eve" none "H2" "r1" "k" 900 5 (by decide) (by decide)).2

/-- C6: Password-reset issuance is last-write-wins with at most one
outstanding row per user: for a user `u` holding exactly one outstanding
reset row (`oldRow`), and a fresh token distinct from the old one (the old
token belonging to no other user, per the schema's UNIQUE(token)),
`requestPasswordReset` leaves `u` with the single new row — new token, new
expiry — and the old token thereafter fails `validatePasswordResetToken`. -/
theorem passwordReset_issuance_last_write_wins (st : DBState) (email fresh : String)
    (now : Nat) (u : User) (oldRow : ResetRow)
    (hu : findUserByEmail? st.users (normalizeEmail email) = some u)
    (hrows : st.resetTokens.filter (fun r => r.userId == u.id) = [oldRow])
    (htok : ∀ r ∈ st.resetTokens, r.token = oldRow.token → r.userId = u.id)
    (hfresh : fresh ≠ oldRow.token) :
    (requestPasswordReset st email fresh now).2.resetTokens.filter (fun r => r.userId == u.id)
      = [⟨u.id, fresh, now + resetTtl⟩] ∧
    (validatePasswordResetToken (requestPasswordReset st email fresh now).2 oldRow.token now).1
      = { valid := false, message := some "Invalid reset token" } := by
  have hred : requestPasswordReset st email fresh now
      = (.ok resetRequestMsg,
         (⟨st.users, st.refreshTokens,
           upsertResetRow (cleanupExpiredResetTokens st.resetTokens now) u.id fresh
             (now + resetTtl),
           st.nextUserId⟩ : DBState)) := by
    unfold requestPasswordReset
    dsimp only
    rw [hu]
  rw [hred]
  have hOldMemFilter : oldRow ∈ st.resetTokens.filter (fun r => r.userId == u.id) := by
    rw [hrows]
    exact List.mem_singleton.2 rfl
  have hOldMem : oldRow ∈ st.resetTokens := (List.mem_filter.1 hOldMemFilter).1
  have hOldP : (oldRow.userId == u.id) = true := (List.mem_filter.1 hOldMemFilter).2
  have hOldUid : oldRow.userId = u.id := by simpa using hOldP
  have hcfilter : (cleanupExpiredResetTokens st.resetTokens now).filter
      (fun r => r.userId == u.id)
      = List.filter (fun r => !(decide (r.expiresAt < now))) [oldRow] := by
    unfold cleanupExpiredResetTokens
    rw [List.filter_filter, ← hrows, List.filter_filter]
    exact List.filter_congr (fun x _ => Bool.and_comm _ _)
  by_cases hq : oldRow.expiresAt < now
  · -- the old row is itself expired: the sweep removes it, the upsert appends
    have hnil : (cleanupExpiredResetTokens st.resetTokens now).filter
        (fun r => r.userId == u.id) = [] := by
      rw [hcfilter, List.filter_cons, if_neg (by simp [hq])]
      rfl
    have hnoP : ∀ a ∈ cleanupExpiredResetTokens st.resetTokens now, ¬ (a.userId == u.id) = true :=
      List.filter_eq_nil_iff.1 hnil
    have hany : ((cleanupExpiredResetTokens st.resetTokens now).any
        (fun r => r.userId == u.id)) ≠ true := by
      intro hcon
      obtain ⟨x, hx, hpx⟩ := List.any_eq_true.1 hcon
      exact hnoP x hx hpx
    have hup : upsertResetRow (cleanupExpiredResetTokens st.resetTokens now) u.id fresh
        (now + resetTtl)
        = cleanupExpiredResetTokens st.resetTokens now ++ [⟨u.id, fresh, now + resetTtl⟩] := by
      unfold upsertResetRow
      rw [if_neg hany]
    rw [hup]
    have hmemtok : ∀ x ∈ cleanupExpiredResetTokens st.resetTokens now ++
        [(⟨u.id, fresh, now + resetTtl⟩ : ResetRow)], x.token ≠ oldRow.token := by
      intro x hx
      rcases List.mem_append.1 hx with hx1 | hx1
      · intro hteq
        have hxs : x ∈ st.resetTokens := (List.mem_filter.1 hx1).1
        have := htok x hxs hteq
        exact absurd (by simpa using this) (hnoP x hx1)
      · rw [List.mem_singleton.1 hx1]
        exact hfresh
    constructor
    · rw [List.filter_append, hnil]
      simp
    · have hnone : (cleanupExpiredResetTokens st.resetTokens now ++
          [(⟨u.id, fresh, now + resetTtl⟩ : ResetRow)]).find?
            (fun r => r.token == oldRow.token) = none := by
        rw [List.find?_eq_none]
        intro x hx
        simpa using hmemtok x hx
      unfold validatePasswordResetToken
      rw [hnone]
  · -- the old row is live: the upsert maps over the table, replacing it
    have hone : (cleanupExpiredResetTokens st.resetTokens now).filter
        (fun r => r.userId == u.id) = [oldRow] := by
      rw [hcfilter, List.filter_cons, if_pos (by simp [hq])]
      rfl
    have hOldMemC : oldRow ∈ cleanupExpiredResetTokens st.resetTokens now := by
      have : oldRow ∈ (cleanupExpiredResetTokens st.resetTokens now).filter
          (fun r => r.userId == u.id) := by
        rw [hone]
        exact List.mem_singleton.2 rfl
      exact (List.mem_filter.1 this).1
    have hany : ((cleanupExpiredResetTokens st.resetTokens now).any
        (fun r => r.userId == u.id)) = true :=
      List.any_eq_true.2 ⟨oldRow, hOldMemC, hOldP⟩
    have hup : upsertResetRow (cleanupExpiredResetTokens st.resetTokens now) u.id fresh
        (now + resetTtl)
        = (cleanupExpiredResetTokens st.resetTokens now).map
            (fun r => if r.userId == u.id then
              { r with token := fresh, expiresAt := now + resetTtl } else r) := by
      unfold upsertResetRow
      rw [if_pos hany]
    rw [hup]
    have hPf : ∀ x ∈ cleanupExpiredResetTokens st.resetTokens now,
        (((fun r : ResetRow => r.userId == u.id) ∘ (fun r =>
            if r.userId == u.id then
              ({ r with token := fresh, expiresAt := now + resetTtl } : ResetRow) else r)) x)
          = (x.userId == u.id) := by
      intro x _
      dsimp only [Function.comp]
      by_cases hpx : (x.userId == u.id) = true
      · rw [if_pos hpx]
      · rw [if_neg hpx]
    constructor
    · rw [List.filter_map, List.filter_congr hPf, hone]
      simp only [List.map_cons, List.map_nil]
      rw [if_pos hOldP]
      have heq : ({ oldRow with token := fresh, expiresAt := now + resetTtl } : ResetRow)
          = ⟨u.id, fresh, now + resetTtl⟩ := by
        cases oldRow
        simp_all
      rw [heq]
    · have hmemtok : ∀ x ∈ (cleanupExpiredResetTokens st.resetTokens now).map
          (fun r => if r.userId == u.id then
            { r with token := fresh, expiresAt := now + resetTtl } else r),
          x.token ≠ oldRow.token := by
        intro x hx
        obtain ⟨r, hrmem, hrx⟩ := List.mem_map.1 hx
        by_cases hpr : (r.userId == u.id) = true
        · rw [if_pos hpr] at hrx
          rw [← hrx]
          exact hfresh
        · rw [if_neg hpr] at hrx
          rw [← hrx]
          intro hteq
          have hrs : r ∈ st.resetTokens := (List.mem_filter.1 hrmem).1
          exact absurd (by simpa using htok r hrs hteq) hpr
      have hnone : ((cleanupExpiredResetTokens st.resetTokens now).map
          (fun r => if r.userId == u.id then
            { r with token := fresh, expiresAt := now + resetTtl } else r)).find?
            (fun r => r.token == oldRow.token) = none := by
        rw [List.find?_eq_none]
        intro x hx
        simpa using hmemtok x hx
      unfold validatePasswordResetToken
      rw [hnone]

/-- Witness for C6: a user with one live reset row gets it replaced, and the
old token no longer validates. -/
theorem passwordReset_issuance_last_write_wins_witness :
    (validatePasswordResetToken
        (requestPasswordReset ⟨[⟨1, "a@x.com", "H", none, none⟩], [], [⟨1, "old", 100⟩], 2⟩
          "a@x.com" "new" 0).2
        "old" 0).1
      = { valid := false, message := some "Invalid reset token" } :=
  (passwordReset_issuance_last_write_wins
    ⟨[⟨1, "a@x.com", "H", none, none⟩], [], [⟨1, "old", 100⟩], 2⟩ "a@x.com" "new" 0
    ⟨1, "a@x.com", "H", none, none⟩ ⟨1, "old", 100⟩
    (by decide) (by decide) (by decide) (by decide)).2

/-- C4 (code bug): with a syntactically valid Bearer header whose token
verifies to user id 1, against a store with no user rows, the guard throws
`InternalServerErrorException('Authentication service error')` — not
`UnauthorizedException` as the spec requires: `validateUser` throws
`NotFoundException`, which the guard's catch block does not map to
Unauthorized (its `if (!user)` Unauthorized branch is unreachable). -/
theorem guard_vanished_user_yields_internal_error :
    canActivate ⟨[], [], [], 1⟩ (fun _ => generateAccessToken 1 "k" 900 0)
        ⟨some "Bearer x"⟩ "k" 5
      = (.error (.internalServerError "Authentication service error"), ⟨[], [], [], 1⟩) := rfl

/-- C3: Uniform invalid result: `extractUserIdFromToken` returns `none`
exactly when some check fails — expired, malformed/bad signature, wrong
`type`, or bad subject — and when every check passes it returns the
payload's subject user id. -/
theorem accessToken_verification_uniform_invalid (tok : JwtInput) (secret : String) (now : Nat) :
    (extractUserIdFromToken tok secret now = none ↔
      (tokenExpired tok now || tokenMalformedOrBadSig tok secret ||
        tokenWrongType tok || tokenBadSubject tok) = true) ∧
    ((tokenExpired tok now || tokenMalformedOrBadSig tok secret ||
        tokenWrongType tok || tokenBadSubject tok) = false →
      ∃ u, tokenSubjectId tok = some u ∧ extractUserIdFromToken tok secret now = some u) := by
  cases tok with
  | malformed raw =>
    simp [extractUserIdFromToken, verifyAccessToken, jwtVerify, tokenExpired,
      tokenMalformedOrBadSig, tokenWrongType, tokenBadSubject, tokenSubjectId]
  | signed t =>
    obtain ⟨claims, exp, sec⟩ := t
    by_cases hsec : sec = secret
    · subst hsec
      cases claims with
      | strPayload s =>
        rcases exp with _ | e
        · simp [extractUserIdFromToken, verifyAccessToken, jwtVerify, tokenExpired,
            tokenMalformedOrBadSig, tokenWrongType, tokenBadSubject, tokenSubjectId]
        · by_cases he : e ≤ now <;>
            simp [extractUserIdFromToken, verifyAccessToken, jwtVerify, tokenExpired,
              tokenMalformedOrBadSig, tokenWrongType, tokenBadSubject, tokenSubjectId, he]
      | objPayload osub otype =>
        rcases osub with _ | sub
        · rcases exp with _ | e
          · simp [extractUserIdFromToken, verifyAccessToken, jwtVerify, tokenExpired,
              tokenMalformedOrBadSig, tokenWrongType, tokenBadSubject, tokenSubjectId]
          · by_cases he : e ≤ now <;>
              simp [extractUserIdFromToken, verifyAccessToken, jwtVerify, tokenExpired,
                tokenMalformedOrBadSig, tokenWrongType, tokenBadSubject, tokenSubjectId, he]
        · rcases otype with _ | ty
          · rcases exp with _ | e
            · simp [extractUserIdFromToken, verifyAccessToken, jwtVerify, tokenExpired,
                tokenMalformedOrBadSig, tokenWrongType, tokenBadSubject, tokenSubjectId]
            · by_cases he : e ≤ now <;>
                simp [extractUserIdFromToken, verifyAccessToken, jwtVerify, tokenExpired,
                  tokenMalformedOrBadSig, tokenWrongType, tokenBadSubject, tokenSubjectId, he]
          · by_cases hty : ty = "access"
            · subst hty
              by_cases hblank : (sub.data.all Char.isWhitespace) = true
              · rcases exp with _ | e
                · simp [extractUserIdFromToken, verifyAccessToken, jwtVerify, tokenExpired,
                    tokenMalformedOrBadSig, tokenWrongType, tokenBadSubject, tokenSubjectId,
                    hblank]
                · by_cases he : e ≤ now <;>
                    simp [extractUserIdFromToken, verifyAccessToken, jwtVerify, tokenExpired,
                      tokenMalformedOrBadSig, tokenWrongType, tokenBadSubject, tokenSubjectId,
                      he, hblank]
              · cases hparse : parseIntJs sub with
                | none =>
                  rcases exp with _ | e
                  · simp [extractUserIdFromToken, verifyAccessToken, jwtVerify, tokenExpired,
                      tokenMalformedOrBadSig, tokenWrongType, tokenBadSubject, tokenSubjectId,
                      hblank, hparse]
                  · by_cases he : e ≤ now <;>
                      simp [extractUserIdFromToken, verifyAccessToken, jwtVerify, tokenExpired,
                        tokenMalformedOrBadSig, tokenWrongType, tokenBadSubject, tokenSubjectId,
                        he, hblank, hparse]
                | some i =>
                  by_cases hi : i ≤ 0
                  · rcases exp with _ | e
                    · simp [extractUserIdFromToken, verifyAccessToken, jwtVerify, tokenExpired,
                        tokenMalformedOrBadSig, tokenWrongType, tokenBadSubject, tokenSubjectId,
                        hblank, hparse, hi]
                    · by_cases he : e ≤ now <;>
                        simp [extractUserIdFromToken, verifyAccessToken, jwtVerify, tokenExpired,
                          tokenMalformedOrBadSig, tokenWrongType, tokenBadSubject, tokenSubjectId,
                          he, hblank, hparse, hi]
                  · rcases exp with _ | e
                    · simp [extractUserIdFromToken, verifyAccessToken, jwtVerify, tokenExpired,
                        tokenMalformedOrBadSig, tokenWrongType, tokenBadSubject, tokenSubjectId,
                        hblank, hparse, hi]
                    · by_cases he : e ≤ now <;>
                        simp [extractUserIdFromToken, verifyAccessToken, jwtVerify, tokenExpired,
                          tokenMalformedOrBadSig, tokenWrongType, tokenBadSubject, tokenSubjectId,
                          he, hblank, hparse, hi]
            · rcases exp with _ | e
              · simp [extractUserIdFromToken, verifyAccessToken, jwtVerify, tokenExpired,
                  tokenMalformedOrBadSig, tokenWrongType, tokenBadSubject, tokenSubjectId, hty]
              · by_cases he : e ≤ now <;>
                  simp [extractUserIdFromToken, verifyAccessToken, jwtVerify, tokenExpired,
                    tokenMalformedOrBadSig, tokenWrongType, tokenBadSubject, tokenSubjectId,
                    he, hty]
    · cases claims <;> rcases exp with _ | e <;>
        simp [extractUserIdFromToken, verifyAccessToken, jwtVerify, tokenExpired,
          tokenMalformedOrBadSig, tokenWrongType, tokenBadSubject, tokenSubjectId, hsec]

/-- Witness for C3: the uniform-invalid equivalence instantiated at an
expired token (rejected) and at a live well-formed token (accepted with its
subject id). -/
theorem accessToken_verification_uniform_invalid_witness :
    (extractUserIdFromToken (generateAccessToken 7 "k" 900 0) "k" 2000 = none ↔
      (tokenExpired (generateAccessToken 7 "k" 900 0) 2000 ||
        tokenMalformedOrBadSig (generateAccessToken 7 "k" 900 0) "k" ||
        tokenWrongType (generateAccessToken 7 "k" 900 0) ||
        tokenBadSubject (generateAccessToken 7 "k" 900 0)) = true) ∧
    (∃ u, tokenSubjectId (generateAccessToken 7 "k" 900 0) = some u ∧
      extractUserIdFromToken (generateAccessToken 7 "k" 900 0) "k" 100 = some u) :=
  ⟨(accessToken_verification_uniform_invalid (generateAccessToken 7 "k" 900 0) "k" 2000).1,
    (accessToken_verification_uniform_invalid (generateAccessToken 7 "k" 900 0) "k" 100).2
      (by decide)⟩

/-- Witness for C10: confirming an unknown token on an empty store raises
BadRequest and leaves the users table unchanged. -/
theorem confirmReset_failure_frame_witness :
    isBadRequestErr (confirmPasswordReset ⟨[⟨1, "e", "H", none, none⟩], [], [], 2⟩ "x" "H2" 0).1
        = true ∧
    (confirmPasswordReset ⟨[⟨1, "e", "H", none, none⟩], [], [], 2⟩ "x" "H2" 0).2.users
        = [⟨1, "e", "H", none, none⟩] :=
  confirmReset_failure_frame ⟨[⟨1, "e", "H", none, none⟩], [], [], 2⟩ "x" "H2" 0 (by decide)

end FireartAuth
